import Mathlib

/-!
Verification development for the VoxWorld Explorer stream playback engine.

The definitions below are shallow embeddings of the playback code of the
repository: the six-stage player component (src/unnamed/part_005) and the
three-stage variant (src/components/RadioPlayer.tsx).  Browser ambience
(page protocol, current clock, HLS runtime support, whether constructing a
decode-graph tap throws) is passed as explicit parameters; React state is a
record, and each event handler or effect body is a function on that record.
-/

namespace VoxWorld

/-- Characters of the pattern list occur contiguously inside the other list.
Mirrors the JavaScript `String.prototype.includes` for our ASCII URLs. -/
def charListInfix (pat : List Char) : List Char → Bool
  | [] => pat.isPrefixOf []
  | c :: rest => pat.isPrefixOf (c :: rest) || charListInfix pat rest

/-- JavaScript `s.startsWith(t)`. -/
def strStartsWith (s t : String) : Bool := t.data.isPrefixOf s.data

/-- JavaScript `s.endsWith(t)`. -/
def strEndsWith (s t : String) : Bool := t.data.isSuffixOf s.data

/-- JavaScript `s.includes(c)` for a single-character needle. -/
def strContainsChar (s : String) (c : Char) : Bool := s.data.contains c

/-- JavaScript `s.includes(t)` for a multi-character needle. -/
def strContainsSub (s t : String) : Bool := charListInfix t.data s.data

/-- JavaScript `s.slice(n)` by characters (used for the HTTPS upgrade). -/
def strDrop (s : String) (n : Nat) : String := ⟨s.data.drop n⟩

/-- Station record (src/unnamed/part_002), restricted to the fields the
playback engine reads.  In the source `url` and `url_resolved` are strings
and `url_resolved` may be empty (falsy). -/
structure Station where
  stationuuid : String
  url : String
  url_resolved : String
deriving DecidableEq

/-- Error taxonomy of the six-stage player (src/unnamed/part_005 line 23). -/
inductive ErrType
  | NETWORK
  | DECODE
  | ACCESS
  | OFFLINE
  | UNKNOWN
deriving DecidableEq

/-- The value stored by `setError` in src/unnamed/part_005: a display
message plus a taxonomy tag. -/
structure PlayerError where
  message : String
  type : ErrType
deriving DecidableEq

/-- React state of the six-stage player that the verified handlers touch,
plus the media-element fields they read (`audio.src`).  `audioCtx` records
whether `audioCtxRef.current` is non-null. -/
structure PlayerState where
  retryStage : Nat
  error : Option PlayerError
  isBuffering : Bool
  isPlaying : Bool
  isCorsBlocked : Bool
  audioCtx : Bool
  audioSrc : String
deriving DecidableEq

/-- Stream resolver of the six-stage player, `getUrlForStage`
(src/unnamed/part_005 lines 33-46), translated line by line.  The ambient
reads of the source are explicit parameters: `protoHttps` stands for
`window.location.protocol === 'https:'` and `now` for `Date.now()`.
The source guards the HTTPS rewrite by `url.startsWith('http://')`, so the
JavaScript replace-first-occurrence equals dropping the 7-character scheme
prefix. -/
def getUrlForStage (s : Station) (stage : Nat) (protoHttps : Bool) (now : Nat) : String :=
  let url := if stage = 0 ∨ stage = 1 ∨ stage = 3 then
      (if s.url_resolved = "" then s.url else s.url_resolved) else s.url
  let url := if stage ≤ 1 ∧ strStartsWith url "http://" ∧ protoHttps then
      "https://" ++ strDrop url 7 else url
  if stage = 5 then
    let url2 := if ¬strEndsWith url ";" ∧ ¬strContainsChar url '?' then
        (if strEndsWith url "/" then url ++ ";" else url ++ "/;") else url
    let sep := if strContainsChar url2 '?' then "&" else "?"
    url2 ++ sep ++ "cb=" ++ toString now
  else url

/-- The choice between `url_resolved` and `url` made on line 34 of
src/unnamed/part_005, as a standalone definition for stating properties. -/
def baseUrlForStage (s : Station) (stage : Nat) : String :=
  if stage = 0 ∨ stage = 1 ∨ stage = 3 then
    (if s.url_resolved = "" then s.url else s.url_resolved) else s.url

/-- The legacy final-stage mutation of src/unnamed/part_005 lines 38-43:
conditional trailing separator, then a cache-busting query parameter. -/
def appendCacheBust (url : String) (now : Nat) : String :=
  let url2 := if ¬strEndsWith url ";" ∧ ¬strContainsChar url '?' then
      (if strEndsWith url "/" then url ++ ";" else url ++ "/;") else url
  let sep := if strContainsChar url2 '?' then "&" else "?"
  url2 ++ sep ++ "cb=" ++ toString now

/-- Native media-element error handler of the six-stage player,
`handlePlaybackError` (src/unnamed/part_005 lines 256-274).
`mediaErrorCode` is `audio.error?.code`; `protoHttps` is the ambient
`window.location.protocol === 'https:'`; the handler reads `audio.src`
from the state.  Below the final stage it advances the stage; at the final
stage it stops buffering and publishes a classified error. -/
def handlePlaybackError (protoHttps : Bool) (s : PlayerState)
    (mediaErrorCode : Option Nat) : PlayerState :=
  if 5 ≤ s.retryStage then
    let e : PlayerError :=
      if protoHttps ∧ strStartsWith s.audioSrc "http://" then
        ⟨"Security Block: Insecure stream.", ErrType.ACCESS⟩
      else
        match mediaErrorCode with
        | some 2 => ⟨"Network error: Connection failed.", ErrType.NETWORK⟩
        | some 3 => ⟨"Format unsupported.", ErrType.DECODE⟩
        | some _ => ⟨"Station offline or format incompatible.", ErrType.OFFLINE⟩
        | none => ⟨"This frequency is unreachable.", ErrType.UNKNOWN⟩
    { s with isBuffering := false, error := some e }
  else
    { s with retryStage := s.retryStage + 1 }

/-- Error-type tags reported by the HLS adapter (`data.type` of
`Hls.Events.ERROR`): network, media, or anything else. -/
inductive HlsErrorKind
  | networkError
  | mediaError
  | otherError
deriving DecidableEq

/-- Local recovery actions an HLS error handler can invoke instead of
touching the retry stage. -/
inductive HlsRecovery
  | startLoad
  | recoverMediaError
deriving DecidableEq

/-- HLS fatal-error handler of the six-stage player (src/unnamed/part_005
line 242): `(_event, data) => \x7b if (data.fatal) setRetryStage(prev => prev + 1); \x7d`.
The classification tag of the event is ignored; no local recovery action is
ever invoked, hence the second component is always `none`. -/
def hlsOnErrorPart005 (_k : HlsErrorKind) (fatal : Bool) (stage : Nat) :
    Nat × Option HlsRecovery :=
  ((if fatal then stage + 1 else stage), none)

/-- Discrete error events delivered to the six-stage player within one
station session: a native media-element `error` event (carrying
`audio.error?.code`), a fatal HLS adapter error, and the settlement of a
rejected `audio.play()` promise (`isAbortError` is whether the rejection
had name `AbortError`). -/
inductive ErrorEvent
  | nativeError (mediaErrorCode : Option Nat)
  | hlsFatal
  | playRejected (isAbortError : Bool)
deriving DecidableEq

/-- One error event processed by the six-stage player.  The native error
event runs `handlePlaybackError`; a fatal HLS error runs the line-242
handler; a rejected play promise runs the `safePlay` wiring of lines
198-208 and 248: `safePlay` swallows rejections named `AbortError` and
rethrows the rest into `.catch(() => setRetryStage(prev => prev + 1))`. -/
def errorStep (protoHttps : Bool) (s : PlayerState) (e : ErrorEvent) : PlayerState :=
  match e with
  | .nativeError code => handlePlaybackError protoHttps s code
  | .hlsFatal => { s with retryStage := s.retryStage + 1 }
  | .playRejected isAbortError =>
      if isAbortError then s else { s with retryStage := s.retryStage + 1 }

/-- Observable outcome of one run of the source-attach effect
(src/unnamed/part_005 lines 217-251): the cross-origin policy written to
the element, the resolved stream URL, whether an HLS adapter was created,
the final value of `audio.src` (empty in the HLS branch, where the adapter
attaches media itself), and whether a play request was issued during this
pass (in the HLS branch play waits for `MANIFEST_PARSED`, so none is
issued synchronously; in the progressive branch `safePlay` is invoked when
the intent is playing, and it returns early when an error is published). -/
structure AttachOut where
  crossOrigin : Option String
  streamUrl : String
  usedHls : Bool
  audioSrc : String
  playRequested : Bool
deriving DecidableEq

/-- Source-attach effect of the six-stage player (src/unnamed/part_005
lines 217-251), as a function of the station prop, the current state, and
the ambient runtime (`hlsSupported` is `Hls.isSupported()`). -/
def attachEffect (st : Station) (s : PlayerState) (hlsSupported protoHttps : Bool)
    (now : Nat) : AttachOut :=
  let crossOrigin : Option String :=
    if 3 ≤ s.retryStage then none else some "anonymous"
  let streamUrl := getUrlForStage st s.retryStage protoHttps now
  if strContainsSub streamUrl ".m3u8" ∧ hlsSupported ∧ s.retryStage = 0 then
    { crossOrigin := crossOrigin, streamUrl := streamUrl, usedHls := true,
      audioSrc := "", playRequested := false }
  else
    { crossOrigin := crossOrigin, streamUrl := streamUrl, usedHls := false,
      audioSrc := streamUrl, playRequested := s.isPlaying && s.error.isNone }

/-- Effects pass of the commit in which the station prop changed identity.
React runs the effect bodies of one commit in declaration order: the
source-attach effect (line 217, deps include `station`) runs first, still
seeing the previous `retryStage` and `error`; the reset effect
(line 289, deps `[station?.stationuuid]`) runs after it, and its state
updates land in the next render.  The result is the attach outcome of this
pass together with the state as of the end of the pass. -/
def stationChangeEffects (s : PlayerState) (newSt : Station)
    (hlsSupported protoHttps : Bool) (now : Nat) : AttachOut × PlayerState :=
  let out := attachEffect newSt s hlsSupported protoHttps now
  let s1 : PlayerState := { s with isBuffering := true, audioSrc := out.audioSrc }
  let s2 : PlayerState := { s1 with retryStage := 0, error := none }
  (out, s2)

/-- The `onTogglePlay` callback handed to the player flips the playing
intent held by the parent component. -/
def togglePlay (s : PlayerState) : PlayerState := { s with isPlaying := !s.isPlaying }

/-- Manual reset operation `handleManualRetry` (src/unnamed/part_005
lines 210-215): stage back to 0, error cleared, buffering on, and the
playing intent toggled on when it was off. -/
def handleManualRetry (s : PlayerState) : PlayerState :=
  let s1 : PlayerState := { s with retryStage := 0, error := none, isBuffering := true }
  if s1.isPlaying then s1 else togglePlay s1

/-- Decode-graph tap construction `initAudioContext` (src/unnamed/part_005
lines 75-98).  When no context exists yet, construction may throw
(`constructThrows`, the cross-origin access violation): on success the
context is recorded and the blocked flag cleared, on a throw the blocked
flag is set and no context is recorded (the source assigns
`audioCtxRef.current` only after the tap is connected).  When a context
already exists the body only resumes it. -/
def initAudioContext (constructThrows : Bool) (s : PlayerState) : PlayerState :=
  if s.audioCtx then s
  else if constructThrows then { s with isCorsBlocked := true }
  else { s with audioCtx := true, isCorsBlocked := false }

/-- Visualizer effect body (src/unnamed/part_005 lines 184-191): while
playing without error, the tap is initialised only when the blocked flag is
off; otherwise the frame loop runs in synthetic mode. -/
def visEffectPass (constructThrows : Bool) (s : PlayerState) : PlayerState :=
  if s.isPlaying ∧ s.error = none then
    (if s.isCorsBlocked = false then initAudioContext constructThrows s else s)
  else s

/-- Events of the analysis pipeline within one session: a re-run of the
visualizer effect (with the ambient fact whether tap construction would
throw) and an animation frame of the `draw` loop, which never touches the
mode flags. -/
inductive VisEvent
  | effectPass (constructThrows : Bool)
  | frame
deriving DecidableEq

/-- One analysis-pipeline event. -/
def visStep (s : PlayerState) (e : VisEvent) : PlayerState :=
  match e with
  | .effectPass thr => visEffectPass thr s
  | .frame => s

/-- A session trace of analysis-pipeline events. -/
def visTrace (s : PlayerState) (es : List VisEvent) : PlayerState :=
  es.foldl visStep s

end VoxWorld

namespace VoxWorld.Tsx

/-- Playback error handler of the three-stage component
(src/components/RadioPlayer.tsx lines 72-96), returning the new stage and
the error message it publishes, if any.  Below stage 2 it advances the
stage; at stage 2 it classifies: mixed content, decode (native code 3),
source gone (native code 4), or a generic unreachable message. -/
def handlePlaybackError (protoHttps : Bool) (streamUrl : String)
    (mediaErrorCode : Option Nat) (stage : Nat) : Nat × Option String :=
  if stage < 2 then (stage + 1, none)
  else
    (stage,
     some (if protoHttps ∧ VoxWorld.strStartsWith streamUrl "http://" then
        "Insecure stream blocked. Try the direct link."
      else if mediaErrorCode = some 3 then "Decode error: Format not supported."
      else if mediaErrorCode = some 4 then "Station offline or address changed."
      else "Stream unreachable."))

/-- HLS error handler of the three-stage component
(src/components/RadioPlayer.tsx lines 119-129): a fatal network error
reloads the manifest (`hls.startLoad()`), a fatal media error resets the
decode pipeline (`hls.recoverMediaError()`), only the remaining fatal
errors fall through to `handlePlaybackError`; non-fatal errors are
ignored.  Result: (new stage, error published, local recovery invoked). -/
def hlsOnError (k : VoxWorld.HlsErrorKind) (fatal : Bool) (protoHttps : Bool)
    (streamUrl : String) (mediaErrorCode : Option Nat) (stage : Nat) :
    (Nat × Option String) × Option VoxWorld.HlsRecovery :=
  if fatal then
    match k with
    | .networkError => ((stage, none), some .startLoad)
    | .mediaError => ((stage, none), some .recoverMediaError)
    | .otherError => (handlePlaybackError protoHttps streamUrl mediaErrorCode stage, none)
  else ((stage, none), none)

end VoxWorld.Tsx

namespace VoxWorld

/-- Concrete station used for the stage-5 clock-dependence results. -/
def stationC4 : Station := ⟨"c4-station", "http://radio.example/stream", ""⟩

/-- Concrete station used for the resolver mutation results. -/
def stationC9 : Station := ⟨"c9-uuid", "http://radio.example/one", "http://radio.example/two"⟩

/-- Concrete station used for the cross-origin policy witness. -/
def stationW : Station := ⟨"w-uuid", "http://w.example/s", ""⟩

/-- Concrete state at the final retry stage with no published error. -/
def s5c1 : PlayerState := ⟨5, none, true, true, false, false, "https://radio.example/a"⟩

/-- Concrete state at the final retry stage with a secure source. -/
def s5c2 : PlayerState := ⟨5, none, true, true, false, false, "https://radio.example/stream"⟩

/-- Concrete state at stage 1 (strict CORS range). -/
def stateStage1 : PlayerState := ⟨1, none, false, true, false, false, ""⟩

/-- Concrete state at stage 4 (relaxed CORS range). -/
def stateStage4 : PlayerState := ⟨4, none, false, true, false, false, ""⟩

/-- Concrete mid-escalation state of a previous station session: stage 3,
no published error, playing. -/
def prevSessionState : PlayerState := ⟨3, none, false, true, false, false, "http://old.example/s"⟩

/-- Concrete newly selected station whose resolved URL is insecure. -/
def newStationC6 : Station := ⟨"new-uuid-1", "http://b.example/x", "http://a.example/live"⟩

/-- Concrete session state whose decode-graph tap construction has already
thrown: blocked flag on, no audio context. -/
def blockedSessionState : PlayerState := ⟨2, none, false, true, true, false, "http://c.example/s"⟩

end VoxWorld

namespace VoxWorld

/-- C3: a play-request rejection whose error name is AbortError (a
superseded request) is swallowed by `safePlay` and changes nothing: no
stage advance and no failed status; only a non-AbortError rejection
reaches the catch that escalates the stage by one. -/
theorem abortError_rejection_is_benign :
    ∀ (protoHttps : Bool) (s : PlayerState),
      errorStep protoHttps s (ErrorEvent.playRejected true) = s ∧
      (errorStep protoHttps s (ErrorEvent.playRejected false)).retryStage =
        s.retryStage + 1 ∧
      (errorStep protoHttps s (ErrorEvent.playRejected false)).error = s.error := by
  intro p s
  exact ⟨rfl, rfl, rfl⟩

/-- C4 (counterexample): the resolver is not a function of only the
(station, stage) pair: at stage 5 it embeds `Date.now()`, so two
evaluations of the same pair at clock values 1 and 2 return different
URL strings. -/
theorem getUrlForStage_stage5_time_dependent :
    getUrlForStage stationC4 5 false 1 ≠ getUrlForStage stationC4 5 false 2 := by
  decide

/-- C4 (amended): the resolver is a deterministic function of the station,
the stage, the ambient page protocol and the ambient clock, and for every
stage other than the final stage 5 its result is independent of the
clock, so two evaluations of the same (station, stage) pair under the same
page protocol return the identical URL string. -/
theorem getUrlForStage_time_independent_off_final_stage :
    ∀ (s : Station) (protoHttps : Bool) (stage : Nat) (now now' : Nat),
      stage ≠ 5 →
      getUrlForStage s stage protoHttps now = getUrlForStage s stage protoHttps now' := by
  intro s p stage n n' h
  simp only [getUrlForStage]
  rw [if_neg h, if_neg h]

/-- C4 (witness): instantiation of the amended purity statement at
stage 3 and two different clock values. -/
theorem getUrlForStage_time_independent_off_final_stage_witness :
    getUrlForStage stationC4 3 false 1 = getUrlForStage stationC4 3 false 2 :=
  getUrlForStage_time_independent_off_final_stage stationC4 false 3 1 2 (by decide)

/-- C8: the manual reset operation returns the stage to 0, clears the
failed status, enters the buffering state, and turns the playing intent
back on when it was off, so the escalation sequence can restart. -/
theorem handleManualRetry_restarts_sequence :
    ∀ s : PlayerState,
      (handleManualRetry s).retryStage = 0 ∧
      (handleManualRetry s).error = none ∧
      (handleManualRetry s).isBuffering = true ∧
      (handleManualRetry s).isPlaying = true := by
  intro s
  unfold handleManualRetry togglePlay
  cases h : s.isPlaying <;> simp [h]

/-- C9: the legacy cache-busting mutation is reserved for the final
stage: for every stage strictly below 5 the resolved URL is independent
of the clock and is exactly one of the unmutated candidates (the raw
`url`, the raw `url_resolved`, or their HTTPS upgrades), carrying no
appended trailing separator and no cache-busting parameter; at stage 5
the result is precisely the cache-busting mutation applied to the raw
station `url`. -/
theorem getUrlForStage_mutation_only_final_stage :
    ∀ (s : Station) (protoHttps : Bool) (now : Nat) (stage : Nat),
      (stage < 5 →
        getUrlForStage s stage protoHttps now = getUrlForStage s stage protoHttps 0 ∧
        (getUrlForStage s stage protoHttps now = s.url ∨
         getUrlForStage s stage protoHttps now = s.url_resolved ∨
         getUrlForStage s stage protoHttps now = "https://" ++ strDrop s.url 7 ∨
         getUrlForStage s stage protoHttps now = "https://" ++ strDrop s.url_resolved 7)) ∧
      getUrlForStage s 5 protoHttps now = appendCacheBust s.url now := by
  intro s p now stage
  constructor
  · intro h5
    have hne : stage ≠ 5 := by omega
    constructor
    · simp only [getUrlForStage]
      rw [if_neg hne, if_neg hne]
    · simp only [getUrlForStage]
      rw [if_neg hne]
      split_ifs <;> tauto
  · simp only [getUrlForStage, appendCacheBust]
    have h1 : ¬((5 : Nat) = 0 ∨ (5 : Nat) = 1 ∨ (5 : Nat) = 3) := by decide
    rw [if_neg h1]
    have h2 : ¬((5 : Nat) ≤ 1 ∧ strStartsWith s.url "http://" ∧ p) :=
      fun h => absurd h.1 (by decide)
    rw [if_neg h2]
    simp

/-- C9 (witness): instantiation at stage 3 with a nonzero clock. -/
theorem getUrlForStage_mutation_only_final_stage_witness :
    getUrlForStage stationC9 3 true 7 = getUrlForStage stationC9 3 true 0 ∧
    (getUrlForStage stationC9 3 true 7 = stationC9.url ∨
     getUrlForStage stationC9 3 true 7 = stationC9.url_resolved ∨
     getUrlForStage stationC9 3 true 7 = "https://" ++ strDrop stationC9.url 7 ∨
     getUrlForStage stationC9 3 true 7 = "https://" ++ strDrop stationC9.url_resolved 7) :=
  (getUrlForStage_mutation_only_final_stage stationC9 true 7 3).1 (by omega)

end VoxWorld

namespace VoxWorld

/-- C1 (counterexample): at the final stage 5, a non-benign rejected play
request does not produce a terminal failed status: the catch wired in the
source-attach effect increments the stage unconditionally, so the stage
becomes 6, exceeding the maximum stage index 5, with no error published
by that handler. -/
theorem retryStage_final_stage_play_rejection_exceeds_max :
    (errorStep false s5c1 (ErrorEvent.playRejected false)).retryStage = 6 ∧
    (errorStep false s5c1 (ErrorEvent.playRejected false)).error = none ∧
    ¬(6 ≤ 5) := by
  decide

/-- C1 (amended): within one station session the retry stage is
monotonically non-decreasing under every error event and never wraps back
to 0; a native media-element error arriving at stage 5 or beyond leaves
the stage unchanged and publishes a terminal failed status; the HLS
adapter is only ever created at stage 0, so its fatal errors advance the
stage to 1; but a non-benign rejected play request increments the stage
unconditionally, so at the final stage it advances the stage past 5
instead of producing a failed status. -/
theorem retryStage_monotone_bounded_amended :
    ∀ (protoHttps : Bool) (s : PlayerState) (e : ErrorEvent),
      (s.retryStage ≤ (errorStep protoHttps s e).retryStage ∧
       ((errorStep protoHttps s e).retryStage = 0 → s.retryStage = 0)) ∧
      (∀ code : Option Nat, 5 ≤ s.retryStage →
         (errorStep protoHttps s (ErrorEvent.nativeError code)).retryStage = s.retryStage ∧
         (errorStep protoHttps s (ErrorEvent.nativeError code)).error.isSome = true) ∧
      (∀ (st : Station) (hlsSup : Bool) (now : Nat),
         (attachEffect st s hlsSup protoHttps now).usedHls = true → s.retryStage = 0) := by
  intro p s e
  refine ⟨?_, ?_, ?_⟩
  · cases e with
    | nativeError code =>
      simp only [errorStep, handlePlaybackError]
      split_ifs
      all_goals first
        | exact ⟨Nat.le_refl _, fun h0 => h0⟩
        | exact ⟨Nat.le_succ _, fun h0 => absurd h0 (Nat.succ_ne_zero _)⟩
    | hlsFatal =>
      exact ⟨Nat.le_succ _, fun h0 => absurd h0 (Nat.succ_ne_zero _)⟩
    | playRejected isAbortError =>
      cases isAbortError with
      | false => exact ⟨Nat.le_succ _, fun h0 => absurd h0 (Nat.succ_ne_zero _)⟩
      | true => exact ⟨Nat.le_refl _, fun h0 => h0⟩
  · intro code h5
    simp only [errorStep, handlePlaybackError]
    rw [if_pos h5]
    exact ⟨rfl, rfl⟩
  · intro st hlsSup now hu
    by_cases hc : strContainsSub (getUrlForStage st s.retryStage p now) ".m3u8" ∧
        hlsSup ∧ s.retryStage = 0
    · exact hc.2.2
    · simp only [attachEffect] at hu
      rw [if_neg hc] at hu
      simp at hu

/-- C1 (witness): a native media-element error at the final stage leaves
the stage at 5 and publishes a failed status. -/
theorem retryStage_monotone_bounded_amended_witness :
    (errorStep false s5c1 (ErrorEvent.nativeError none)).retryStage = s5c1.retryStage ∧
    (errorStep false s5c1 (ErrorEvent.nativeError none)).error.isSome = true :=
  (retryStage_monotone_bounded_amended false s5c1 (ErrorEvent.nativeError none)).2.1
    none (by decide)

/-- C2 (counterexample): at the final stage with no native media error
available (and no mixed-content condition), the handler publishes reason
UNKNOWN with the generic unreachable message, not reason OFFLINE as the
claim states. -/
theorem handlePlaybackError_missing_code_not_offline :
    (handlePlaybackError false s5c2 none).error =
      some ⟨"This frequency is unreachable.", ErrType.UNKNOWN⟩ ∧
    ErrType.UNKNOWN ≠ ErrType.OFFLINE := by
  decide

/-- C2 (amended): once the stage has reached its maximum, the next native
error event deterministically yields a failed status without advancing the
stage: reason ACCESS when the page is secure and the current source is
insecure; otherwise NETWORK for native code 2, DECODE for native code 3,
OFFLINE for every other native code, and UNKNOWN (not OFFLINE) when no
native media error is available. -/
theorem handlePlaybackError_terminal_reasons :
    ∀ (protoHttps : Bool) (s : PlayerState), 5 ≤ s.retryStage →
      (∀ code : Option Nat,
         (handlePlaybackError protoHttps s code).retryStage = s.retryStage ∧
         (handlePlaybackError protoHttps s code).isBuffering = false) ∧
      ((protoHttps ∧ strStartsWith s.audioSrc "http://") →
         ∀ code : Option Nat, (handlePlaybackError protoHttps s code).error =
           some ⟨"Security Block: Insecure stream.", ErrType.ACCESS⟩) ∧
      (¬(protoHttps ∧ strStartsWith s.audioSrc "http://") →
         (handlePlaybackError protoHttps s none).error =
           some ⟨"This frequency is unreachable.", ErrType.UNKNOWN⟩ ∧
         (handlePlaybackError protoHttps s (some 2)).error =
           some ⟨"Network error: Connection failed.", ErrType.NETWORK⟩ ∧
         (handlePlaybackError protoHttps s (some 3)).error =
           some ⟨"Format unsupported.", ErrType.DECODE⟩ ∧
         (∀ c : Nat, c ≠ 2 → c ≠ 3 →
            (handlePlaybackError protoHttps s (some c)).error =
              some ⟨"Station offline or format incompatible.", ErrType.OFFLINE⟩)) := by
  intro p s h5
  refine ⟨?_, ?_, ?_⟩
  · intro code
    simp only [handlePlaybackError]
    rw [if_pos h5]
    exact ⟨rfl, rfl⟩
  · intro hmix code
    simp only [handlePlaybackError]
    rw [if_pos h5, if_pos hmix]
  · intro hmix
    refine ⟨?_, ?_, ?_, ?_⟩
    · simp only [handlePlaybackError]
      rw [if_pos h5, if_neg hmix]
    · simp only [handlePlaybackError]
      rw [if_pos h5, if_neg hmix]
    · simp only [handlePlaybackError]
      rw [if_pos h5, if_neg hmix]
    · intro c h2 h3
      simp only [handlePlaybackError]
      rw [if_pos h5, if_neg hmix]

/-- C2 (witness): at the final stage with a secure source and native code
2, the published reason is NETWORK. -/
theorem handlePlaybackError_terminal_reasons_witness :
    (handlePlaybackError false s5c2 (some 2)).error =
      some ⟨"Network error: Connection failed.", ErrType.NETWORK⟩ :=
  ((handlePlaybackError_terminal_reasons false s5c2 (by decide)).2.2 (by decide)).2.1

end VoxWorld

namespace VoxWorld

/-- C5 (counterexample): in the six-stage player, the HLS error handler
advances the retry stage for every fatal error, including one classified
as a network error, and invokes no local recovery (no manifest reload):
at stage 0 a fatal network-classified error moves the stage to 1. -/
theorem hls_fatal_network_advances_stage_in_part005 :
    hlsOnErrorPart005 HlsErrorKind.networkError true 0 = (1, none) ∧
    (1 : Nat) ≠ 0 := by
  decide

/-- C5 (amended): the classifying behavior lives only in the three-stage
component: there a fatal network error reloads the manifest without
touching the stage, a fatal media error resets the decode pipeline
without touching the stage, and only the remaining fatal errors reach the
error handler, which advances the stage below its maximum; in the
six-stage player every fatal adapter error advances the stage, regardless
of its classification, with no local recovery. -/
theorem hls_fatal_error_classification_amended :
    ∀ (protoHttps : Bool) (streamUrl : String) (code : Option Nat) (stage : Nat),
      (Tsx.hlsOnError .networkError true protoHttps streamUrl code stage =
         ((stage, none), some .startLoad)) ∧
      (Tsx.hlsOnError .mediaError true protoHttps streamUrl code stage =
         ((stage, none), some .recoverMediaError)) ∧
      (stage < 2 →
         Tsx.hlsOnError .otherError true protoHttps streamUrl code stage =
           ((stage + 1, none), none)) ∧
      (∀ (k k' : HlsErrorKind) (fatal : Bool),
         hlsOnErrorPart005 k fatal stage = hlsOnErrorPart005 k' fatal stage) ∧
      (∀ k : HlsErrorKind, (hlsOnErrorPart005 k true stage).1 = stage + 1 ∧
         (hlsOnErrorPart005 k true stage).2 = none) := by
  intro p u c stage
  refine ⟨rfl, rfl, ?_, ?_, ?_⟩
  · intro h2
    simp only [Tsx.hlsOnError, Tsx.handlePlaybackError]
    rw [if_pos h2]
    simp
  · intro k k' fatal
    rfl
  · intro k
    exact ⟨rfl, rfl⟩

/-- C5 (witness): in the three-stage component, a fatal error that is
neither network- nor media-classified advances the stage from 1 to 2. -/
theorem hls_fatal_error_classification_amended_witness :
    Tsx.hlsOnError HlsErrorKind.otherError true false "http://x.example/s" none 1 =
      ((2, none), none) :=
  (hls_fatal_error_classification_amended false "http://x.example/s" none 1).2.2.1
    (by decide)

/-- C6 (counterexample): the effects of the station-change commit run in
declaration order, so the source-attach effect runs before the reset
effect.  Starting from a previous session at stage 3 (no error, playing)
and switching to a station with a different identity, the first attach
for the new station uses the stale stage-3 plan: the insecure resolved
URL with the cross-origin attribute removed, and a play request is issued
for it, whereas the stage-0 plan would have produced the HTTPS-upgraded
URL.  The reset to stage 0 lands only after this attach. -/
theorem stationChange_first_attach_uses_stale_stage :
    (stationChangeEffects prevSessionState newStationC6 true true 0).1.streamUrl =
      "http://a.example/live" ∧
    (stationChangeEffects prevSessionState newStationC6 true true 0).1.playRequested = true ∧
    (stationChangeEffects prevSessionState newStationC6 true true 0).1.crossOrigin = none ∧
    getUrlForStage newStationC6 0 true 0 = "https://a.example/live" ∧
    ("http://a.example/live" : String) ≠ "https://a.example/live" := by
  decide

/-- C6 (amended): when the station identity changes, the commit does reset
the retry stage to 0 and clear any prior error status; but the
source-attach effect of the same commit runs first, so the attach outcome
of this pass is computed from the pre-reset state and its stream URL is
resolved at the previous session's stage; the stage-0 attempt follows
only in the next effects pass. -/
theorem stationChange_resets_after_first_attach :
    ∀ (s : PlayerState) (newSt : Station) (hlsSup protoHttps : Bool) (now : Nat),
      ((stationChangeEffects s newSt hlsSup protoHttps now).2.retryStage = 0 ∧
       (stationChangeEffects s newSt hlsSup protoHttps now).2.error = none) ∧
      (stationChangeEffects s newSt hlsSup protoHttps now).1 =
        attachEffect newSt s hlsSup protoHttps now ∧
      (stationChangeEffects s newSt hlsSup protoHttps now).1.streamUrl =
        getUrlForStage newSt s.retryStage protoHttps now := by
  intro s newSt hl p n
  refine ⟨⟨rfl, rfl⟩, rfl, ?_⟩
  simp only [stationChangeEffects, attachEffect]
  split_ifs <;> rfl

/-- C7: once the cross-origin-blocked flag is set within a session (the
decode-graph tap construction threw), it stays set for the rest of the
session under every further effect pass and animation frame, and the tap
is never constructed afterwards (the audio-context flag never changes
again).  Since the flag can only be cleared by a successful construction,
which is never attempted while the flag is set, the live-to-synthetic
transition happens at most once per session and never reverses. -/
theorem corsBlocked_sticky_within_session :
    ∀ (s : PlayerState) (es : List VisEvent), s.isCorsBlocked = true →
      (visTrace s es).isCorsBlocked = true ∧ (visTrace s es).audioCtx = s.audioCtx := by
  intro s es
  induction es generalizing s with
  | nil => intro h; exact ⟨h, rfl⟩
  | cons e rest ih =>
    intro h
    have hstep : visStep s e = s := by
      cases e with
      | frame => rfl
      | effectPass thr =>
        simp only [visStep, visEffectPass]
        split_ifs with h1 h2
        · rw [h] at h2
          exact absurd h2 (by decide)
        · rfl
        · rfl
    simp only [visTrace, List.foldl_cons, hstep]
    exact ih s h

/-- C7 (witness): a blocked session state stays blocked and keeps no
audio context across an effect pass that would throw, a frame, and an
effect pass that would succeed. -/
theorem corsBlocked_sticky_within_session_witness :
    (visTrace blockedSessionState
        [VisEvent.effectPass true, VisEvent.frame, VisEvent.effectPass false]).isCorsBlocked =
      true ∧
    (visTrace blockedSessionState
        [VisEvent.effectPass true, VisEvent.frame, VisEvent.effectPass false]).audioCtx =
      blockedSessionState.audioCtx :=
  corsBlocked_sticky_within_session blockedSessionState
    [VisEvent.effectPass true, VisEvent.frame, VisEvent.effectPass false] rfl

/-- C10: on every run of the source-attach effect, the cross-origin policy
written to the decode element is determined solely by the retry stage: at
stages 0 through 2 the element gets crossOrigin set to anonymous, and from
stage 3 on the attribute is removed; any two attaches at equal stages
write the same policy, whatever the station, transport support, protocol
or clock. -/
theorem attachEffect_crossOrigin_policy :
    ∀ (st : Station) (s : PlayerState) (hlsSup protoHttps : Bool) (now : Nat),
      ((s.retryStage ≤ 2 →
          (attachEffect st s hlsSup protoHttps now).crossOrigin = some "anonymous") ∧
       (3 ≤ s.retryStage →
          (attachEffect st s hlsSup protoHttps now).crossOrigin = none)) ∧
      (∀ (st' : Station) (s' : PlayerState) (hlsSup' protoHttps' : Bool) (now' : Nat),
         s'.retryStage = s.retryStage →
         (attachEffect st' s' hlsSup' protoHttps' now').crossOrigin =
           (attachEffect st s hlsSup protoHttps now).crossOrigin) := by
  have key : ∀ (st : Station) (s : PlayerState) (h p : Bool) (n : Nat),
      (attachEffect st s h p n).crossOrigin =
        if 3 ≤ s.retryStage then none else some "anonymous" := by
    intro st s h p n
    simp only [attachEffect]
    split_ifs <;> rfl
  intro st s hl p n
  refine ⟨⟨?_, ?_⟩, ?_⟩
  · intro hle
    rw [key, if_neg (by omega)]
  · intro hge
    rw [key, if_pos hge]
  · intro st' s' h' p' n' he
    rw [key, key, he]

/-- C10 (witness): at stage 1 the policy is anonymous, at stage 4 the
attribute is removed. -/
theorem attachEffect_crossOrigin_policy_witness :
    (attachEffect stationW stateStage1 false false 0).crossOrigin = some "anonymous" ∧
    (attachEffect stationW stateStage4 false false 0).crossOrigin = none :=
  ⟨(attachEffect_crossOrigin_policy stationW stateStage1 false false 0).1.1 (by decide),
   (attachEffect_crossOrigin_policy stationW stateStage4 false false 0).1.2 (by decide)⟩

end VoxWorld
